import Mathlib

/-!
Verification of the core of `app.py` (class `ExcelTransformer`): the column
data-type inferencer (`detect_data_type`), the metadata builder
(`transform_to_metadata`) and the spreadsheet exporter
(`create_excel_download`), shallowly embedded in Lean.

Modelling conventions:
* a cell of a loaded column is `Option String`; `none` is a missing value
  (pandas `NaN`/`None`, the values `dropna` removes);
* `values.dropna()` is `List.filterMap id`;
* Python float comparisons `count / total > 0.7` and `> 0.8` are modelled as
  the exact rational comparisons `10 * count > 7 * total` and
  `10 * count > 8 * total`;
* the predicates `_is_date` and `_is_numeric` bottom out in external library
  parsing (`datetime.strptime`, `pandas.to_datetime`, Python `float`), so the
  classifier is embedded parameterically over two predicates
  `is_date is_numeric : String → Bool`; every classifier theorem holds for
  all instantiations of the predicates;
* Python `str(int)` is `natRepr`, our decimal rendering of a natural number;
* the openpyxl workbook is modelled at cell granularity by the structure
  `Worksheet`: row 1 (hidden), row 2 (bold), frozen panes at cell (3,1),
  data rows from row 3, and the computed column widths.  The byte-level
  xlsx serialisation performed by `wb.save` is the external library.
-/

/-- Python `str.strip` whitespace (space, tab, newline, carriage return,
vertical tab, form feed). -/
def pyWhitespace (c : Char) : Bool :=
  c = ' ' || c = '\t' || c = '\n' || c = '\r' || c = Char.ofNat 11 || c = Char.ofNat 12

/-- Python `str.strip()`: remove leading and trailing whitespace. -/
def pyStrip (s : String) : String :=
  String.mk (((s.data.dropWhile pyWhitespace).reverse.dropWhile pyWhitespace).reverse)

/-- Python `str.lower()` restricted to the alphabets occurring in the
boolean-indicator vocabulary: ASCII `A`-`Z` and Cyrillic `А`-`Я`, `Ё`.
Other characters are left unchanged. -/
def pyLowerChar (c : Char) : Char :=
  if 'A' ≤ c ∧ c ≤ 'Z' then Char.ofNat (c.toNat + 32)
  else if c = 'Ё' then 'ё'
  else if 'А' ≤ c ∧ c ≤ 'Я' then Char.ofNat (c.toNat + 32)
  else c

/-- Python `str.lower()` on a whole string. -/
def pyLower (s : String) : String :=
  String.mk (s.data.map pyLowerChar)

/-- `clean_values.astype(str).str.strip().str.lower()` applied to one value:
trim, then lowercase. -/
def pyNormalize (s : String) : String :=
  pyLower (pyStrip s)

/-- `bool_indicators` of `detect_data_type` (app.py lines 43-46). -/
def bool_indicators : List String :=
  ["да", "нет", "true", "false", "1", "0", "yes", "no",
   "y", "n", "вкл", "выкл", "on", "off", "активен", "неактивен"]

/-- `values.dropna()` (app.py line 35): the non-missing values of a column. -/
def clean_values (values : List (Option String)) : List String :=
  values.filterMap id

/-- The distinct normalized values `set(str_values.unique())`
(app.py lines 40, 47). -/
def unique_normalized (values : List (Option String)) : List String :=
  ((clean_values values).map pyNormalize).dedup

/-- The flag test of app.py line 48:
`unique_values.issubset(bool_indicators) and len(unique_values) <= 3`. -/
def flag_condition (values : List (Option String)) : Bool :=
  (unique_normalized values).all (fun v => bool_indicators.contains v) &&
    decide ((unique_normalized values).length ≤ 3)

/-- `ExcelTransformer.detect_data_type` (app.py lines 24-69), parameterised by
the predicates `_is_date` and `_is_numeric` (external-library parsing). -/
def detect_data_type (is_date is_numeric : String → Bool)
    (values : List (Option String)) : String :=
  let cv := clean_values values
  if cv.length = 0 then "текст"
  else if flag_condition values then "флаг"
  else if 7 * cv.length < 10 * cv.countP is_date then "дата"
  else if 8 * cv.length < 10 * cv.countP is_numeric then "число"
  else "текст"

/-- Decimal digits of a natural number, most significant first, with a
structural fuel argument so that concrete values reduce in the kernel;
`fuel > n` suffices. -/
def natDigitsAux (fuel n : Nat) : List Char :=
  match fuel with
  | 0 => []
  | fuel' + 1 =>
    if n < 10 then [Char.ofNat (48 + n)]
    else natDigitsAux fuel' (n / 10) ++ [Char.ofNat (48 + n % 10)]

/-- Decimal digits of a natural number, most significant first: the model of
Python `str(int)` used by the f-string `f"{self.report_number}_{x}"`. -/
def natDigits (n : Nat) : List Char :=
  natDigitsAux (n + 1) n

/-- Python `str(n)` for a natural number `n`. -/
def natRepr (n : Nat) : String :=
  String.mk (natDigits n)

/-- Inverse reading of a decimal digit character. -/
def decodeDigit (c : Char) : Nat :=
  c.toNat - 48

/-- Inverse reading of a most-significant-first digit list. -/
def decodeDigits (l : List Char) : Nat :=
  l.foldl (fun a c => 10 * a + decodeDigit c) 0

theorem decodeDigit_ofNat : ∀ d < 10, decodeDigit (Char.ofNat (48 + d)) = d := by
  decide

theorem natDigitsAux_foldl :
    ∀ fuel n a : Nat, n < fuel →
      (natDigitsAux fuel n).foldl (fun a c => 10 * a + decodeDigit c) a =
        a * 10 ^ (natDigitsAux fuel n).length + n := by
  intro fuel
  induction fuel with
  | zero => intro n a h; exact absurd h (Nat.not_lt_zero n)
  | succ f ih =>
    intro n a h
    simp only [natDigitsAux]
    by_cases h10 : n < 10
    · rw [if_pos h10]
      simp [decodeDigit_ofNat n h10, Nat.mul_comm]
    · rw [if_neg h10]
      rw [List.foldl_append, List.length_append]
      have hn : 0 < n := by omega
      have hlt : n / 10 < f := by
        have hdiv : n / 10 < n := Nat.div_lt_self hn (by decide)
        omega
      rw [ih (n / 10) a hlt]
      simp only [List.foldl_cons, List.foldl_nil, List.length_cons, List.length_nil]
      rw [decodeDigit_ofNat (n % 10) (Nat.mod_lt n (by decide))]
      generalize (natDigitsAux f (n / 10)).length = L
      conv_rhs => rw [← Nat.div_add_mod n 10]
      ring

theorem decodeDigits_natDigits (n : Nat) : decodeDigits (natDigits n) = n := by
  unfold decodeDigits natDigits
  rw [natDigitsAux_foldl (n + 1) n 0 (Nat.lt_succ_self n)]
  simp

theorem natRepr_injective : Function.Injective natRepr := by
  intro m n h
  have hd : natDigits m = natDigits n := by
    have := congrArg String.data h
    simpa [natRepr] using this
  have := congrArg decodeDigits hd
  rwa [decodeDigits_natDigits, decodeDigits_natDigits] at this

/-- One metadata record (the dict built at app.py lines 185-207).  Field
names follow the dict keys; the Python key `example` is a Lean keyword and
is embedded as `example_info`. -/
structure MetadataRecord where
  ReportCode_info : String
  Noreportfield_info : Nat
  name : String
  description : String
  TechAsIs : String
  BussAlgorythm : String
  TechAlgorythm : String
  algorithms_change_info : String
  dbobjectlink : String
  base_type_info : String
  related_it_system_info : String
  reportfields_codes : String
  reportfields_names : String
  reportfields_parent_term : String
  reportfields_domain : String
  required_attribute_info : String
  base_type_report_field : String
  base_calc_ref_ind_info : String
  codeTable_info : String
  example_info : String
  isToDelete_info : String
deriving DecidableEq, Repr

/-- One loop iteration of `transform_to_metadata` (app.py lines 167-209):
the record for column `column` with data `column_data` at 1-based
position `idx`, before the `ReportCode_info` post-pass. -/
def build_record (is_date is_numeric : String → Bool) (report_type : String)
    (idx : Nat) (column : String) (column_data : List (Option String)) :
    MetadataRecord :=
  let data_type := detect_data_type is_date is_numeric column_data
  let tech_algorithm_to_be :=
    if report_type ∈ ["Ручной", "Полуавтоматический"] then "Ручной ввод" else ""
  let data_source_type :=
    if report_type ∈ ["Ручной", "Полуавтоматический"] then "Ручное заполнение"
    else "База данных"
  let system_connection := if report_type = "ИЛА" then "ИЛА One" else ""
  { ReportCode_info := ""
    Noreportfield_info := idx
    name := column
    description := ""
    TechAsIs := ""
    BussAlgorythm := ""
    TechAlgorythm := tech_algorithm_to_be
    algorithms_change_info := "нет"
    dbobjectlink := ""
    base_type_info := data_source_type
    related_it_system_info := system_connection
    reportfields_codes := ""
    reportfields_names := ""
    reportfields_parent_term := ""
    reportfields_domain := ""
    required_attribute_info := "да"
    base_type_report_field := data_type
    base_calc_ref_ind_info := "Базовый"
    codeTable_info := ""
    example_info := ""
    isToDelete_info := "" }

/-- `ExcelTransformer.transform_to_metadata` (app.py lines 154-218).  The
input DataFrame is its ordered columns, each a name with its cell values.
When the column list is empty, `metadata_list` is empty, `pd.DataFrame([])`
has no columns, and the post-pass access
`metadata_df['Noreportfield_info']` raises `KeyError`; this is the
`Except.error` branch.  Otherwise the post-pass fills `ReportCode_info`
with `f"{self.report_number}_{x}"` for each record's
`Noreportfield_info` value `x`. -/
def transform_to_metadata (report_number : String)
    (is_date is_numeric : String → Bool)
    (df : List (String × List (Option String))) (report_type : String) :
    Except String (List MetadataRecord) :=
  let metadata_list := df.enum.map fun p =>
    build_record is_date is_numeric report_type (p.1 + 1) p.2.1 p.2.2
  if metadata_list.isEmpty then
    Except.error "KeyError: 'Noreportfield_info'"
  else
    Except.ok (metadata_list.map fun r =>
      { r with ReportCode_info := report_number ++ "_" ++ natRepr r.Noreportfield_info })

/-- A spreadsheet cell value: a string or an integer
(`Noreportfield_info` is written as an int, everything else as str). -/
inductive CellVal where
  | s (v : String)
  | n (v : Nat)
deriving DecidableEq, Repr

/-- `technical_headers` of `create_excel_download` (app.py lines 238-245). -/
def technical_headers : List String :=
  ["ReportCode_info", "Noreportfield_info", "name", "description", "TechAsIs",
   "BussAlgorythm", "TechAlgorythm", "algorithms_change_info", "dbobjectlink",
   "base_type_info", "related_it_system_info", "reportfields_codes",
   "reportfields_names", "reportfields_parent_term", "reportfields_domain",
   "required_attribute_info", "base_type_report_field", "base_calc_ref_ind_info",
   "codeTable_info", "example", "isToDelete_info"]

/-- `user_headers` of `create_excel_download` (app.py lines 248-270). -/
def user_headers : List String :=
  ["Код атрибута отчета",
   "№ атрибута отчета",
   "Наименование атрибута",
   "Описание атрибута",
   "Технический алгоритм AS IS",
   "Бизнес-алгоритм AS IS",
   "Технический алгоритм TO BE",
   "Алгоритм изменен",
   "Физические атрибуты",
   "Тип источника данных",
   "Связь с информационной системой",
   "Код термина/терминов",
   "Наименование термина/терминов",
   "Наименование родительской сущности термина/терминов",
   "Домен термина/терминов",
   "Обязательный атрибут для заполнения",
   "Базовый тип атрибута (Текст, Число, Дата, Флаг)",
   "Признак атрибута (Базовый, Расчетный, Справочный)",
   "Наименование справочника",
   "Примечание",
   "Помечен к удалению"]

/-- One data row of the worksheet: the record's values in DataFrame column
order, which is the dict insertion order of app.py lines 185-207
(identical to `technical_headers` order).  `Noreportfield_info` is the
only integer cell. -/
def recordToRow (r : MetadataRecord) : List CellVal :=
  [CellVal.s r.ReportCode_info, CellVal.n r.Noreportfield_info,
   CellVal.s r.name, CellVal.s r.description, CellVal.s r.TechAsIs,
   CellVal.s r.BussAlgorythm, CellVal.s r.TechAlgorythm,
   CellVal.s r.algorithms_change_info, CellVal.s r.dbobjectlink,
   CellVal.s r.base_type_info, CellVal.s r.related_it_system_info,
   CellVal.s r.reportfields_codes, CellVal.s r.reportfields_names,
   CellVal.s r.reportfields_parent_term, CellVal.s r.reportfields_domain,
   CellVal.s r.required_attribute_info, CellVal.s r.base_type_report_field,
   CellVal.s r.base_calc_ref_ind_info, CellVal.s r.codeTable_info,
   CellVal.s r.example_info, CellVal.s r.isToDelete_info]

/-- Python `str(value)` of a cell value. -/
def cell_str : CellVal → String
  | CellVal.s v => v
  | CellVal.n v => natRepr v

/-- Python truthiness of a cell value (`if cell_value` at app.py line 310):
the empty string and 0 are falsy. -/
def cell_truthy : CellVal → Bool
  | CellVal.s v => v ≠ ""
  | CellVal.n v => v ≠ 0

/-- The auto-sized width of column `j` (0-based) at app.py lines 294-314:
the maximum display length over the technical header, the user header and
the truthy data cells of that column, plus 2, clamped to 50. -/
def column_width (data_rows : List (List CellVal)) (j : Nat) : Nat :=
  let header_max :=
    max (technical_headers.getD j "").length (user_headers.getD j "").length
  let data_max := data_rows.foldl (fun acc row =>
    match row[j]? with
    | some v => if cell_truthy v ∧ acc < (cell_str v).length
                then (cell_str v).length else acc
    | none => acc) header_max
  min (data_max + 2) 50

/-- The produced openpyxl worksheet, at cell granularity: row 1 holds
`row1` and is hidden, row 2 holds `row2` in bold, panes are frozen at cell
(`freeze_row`, `freeze_col`) = (3, 1) so rows 1-2 stay visible, and the
data rows occupy rows 3, 4, ... in order. -/
structure Worksheet where
  title : String
  row1 : List String
  row1_hidden : Bool
  row2 : List String
  row2_bold : Bool
  freeze_row : Nat
  freeze_col : Nat
  data_rows : List (List CellVal)
  col_widths : List Nat
deriving DecidableEq, Repr

/-- `ExcelTransformer.create_excel_download` (app.py lines 220-319), up to
the byte-level xlsx serialisation of `wb.save` (external library): the
workbook's single sheet. -/
def create_excel_download (metadata_df : List MetadataRecord) : Worksheet :=
  let data_rows := metadata_df.map recordToRow
  { title := "Атрибут отчета"
    row1 := technical_headers
    row1_hidden := true
    row2 := user_headers
    row2_bold := true
    freeze_row := 3
    freeze_col := 1
    data_rows := data_rows
    col_widths := (List.range technical_headers.length).map (column_width data_rows) }

/-- Reading one data row back into a record: defined exactly when the row
has the 21 documented columns with the integer in position 2. -/
def parse_record : List CellVal → Option MetadataRecord
  | [CellVal.s a1, CellVal.n a2, CellVal.s a3, CellVal.s a4, CellVal.s a5,
     CellVal.s a6, CellVal.s a7, CellVal.s a8, CellVal.s a9, CellVal.s a10,
     CellVal.s a11, CellVal.s a12, CellVal.s a13, CellVal.s a14, CellVal.s a15,
     CellVal.s a16, CellVal.s a17, CellVal.s a18, CellVal.s a19, CellVal.s a20,
     CellVal.s a21] =>
    some ⟨a1, a2, a3, a4, a5, a6, a7, a8, a9, a10, a11, a12, a13, a14, a15,
          a16, a17, a18, a19, a20, a21⟩
  | _ => none

theorem clean_values_nil_of_all_isNone {values : List (Option String)}
    (h : values.all Option.isNone) : clean_values values = [] := by
  induction values with
  | nil => rfl
  | cons v t ih =>
    simp only [List.all_cons, Bool.and_eq_true] at h
    cases v with
    | none => simpa [clean_values] using ih h.2
    | some a => simp at h

/-- C2: for every column sample whose values are entirely missing/empty,
`detect_data_type` returns the text type, for any date and numeric
predicates. -/
theorem detect_data_type_all_missing (is_date is_numeric : String → Bool)
    (values : List (Option String)) (h : values.all Option.isNone) :
    detect_data_type is_date is_numeric values = "текст" := by
  have hcv : clean_values values = [] := clean_values_nil_of_all_isNone h
  simp [detect_data_type, hcv]

/-- C2 witness: a concrete entirely-missing sample classifies as text. -/
theorem detect_data_type_all_missing_witness :
    ([none, none] : List (Option String)).all Option.isNone
      ∧ detect_data_type (fun _ => true) (fun _ => true) [none, none] = "текст" :=
  ⟨by decide,
   detect_data_type_all_missing (fun _ => true) (fun _ => true) [none, none] (by decide)⟩

/-- C3: for every non-empty column sample whose distinct trimmed-lowercase
values form a subset of the boolean-indicator vocabulary of size at most 3,
`detect_data_type` returns the flag type — for every date and numeric
predicate, hence with priority over the date and number checks. -/
theorem detect_data_type_flag (is_date is_numeric : String → Bool)
    (values : List (Option String))
    (hne : clean_values values ≠ [])
    (hsub : ∀ v ∈ unique_normalized values, v ∈ bool_indicators)
    (hcard : (unique_normalized values).length ≤ 3) :
    detect_data_type is_date is_numeric values = "флаг" := by
  have hflag : flag_condition values = true := by
    simp only [flag_condition, Bool.and_eq_true, List.all_eq_true, decide_eq_true_eq]
    exact ⟨fun v hv => List.elem_iff.mpr (hsub v hv), hcard⟩
  have h0 : ¬ (clean_values values).length = 0 := by
    simpa [List.length_eq_zero] using hne
  simp [detect_data_type, h0, hflag]

/-- C3 witness: a concrete yes/no column (with Cyrillic case variation)
classifies as flag even when every value also satisfies the date and
numeric predicates. -/
theorem detect_data_type_flag_witness :
    clean_values [some "Да", some "НЕТ", some "да"] ≠ []
      ∧ (∀ v ∈ unique_normalized [some "Да", some "НЕТ", some "да"], v ∈ bool_indicators)
      ∧ (unique_normalized [some "Да", some "НЕТ", some "да"]).length ≤ 3
      ∧ detect_data_type (fun _ => true) (fun _ => true)
          [some "Да", some "НЕТ", some "да"] = "флаг" :=
  ⟨by decide, by decide, by decide,
   detect_data_type_flag (fun _ => true) (fun _ => true)
     [some "Да", some "НЕТ", some "да"] (by decide) (by decide) (by decide)⟩

/-- C4: for every non-empty column sample that does not satisfy the flag
condition, `detect_data_type` returns the date type exactly when the
date-parseable fraction strictly exceeds 0.7 (modelled exactly:
`10 * date_count > 7 * total`). -/
theorem detect_data_type_date_iff (is_date is_numeric : String → Bool)
    (values : List (Option String))
    (hne : clean_values values ≠ [])
    (hflag : flag_condition values = false) :
    detect_data_type is_date is_numeric values = "дата" ↔
      7 * (clean_values values).length <
        10 * (clean_values values).countP is_date := by
  have h0 : ¬ (clean_values values).length = 0 := by
    simpa [List.length_eq_zero] using hne
  by_cases hd : 7 * (clean_values values).length <
      10 * (clean_values values).countP is_date
  · simp [detect_data_type, h0, hflag, hd]
  · simp only [detect_data_type, h0, if_false, hflag, Bool.false_eq_true, hd, if_neg]
    constructor
    · intro hcontr
      by_cases hnum : 8 * (clean_values values).length <
          10 * (clean_values values).countP is_numeric
      · rw [if_pos hnum] at hcontr
        exact absurd hcontr (by decide)
      · rw [if_neg hnum] at hcontr
        exact absurd hcontr (by decide)
    · intro hcontr
      exact hcontr.elim

/-- C4 witness: with a concrete predicate, 8 of 10 date-parseable values
(80% > 70%) classify as date, and exactly 7 of 10 (70%) do not. -/
theorem detect_data_type_date_iff_witness :
    clean_values (List.replicate 8 (some "d") ++ [some "x", some "x"]) ≠ []
      ∧ flag_condition (List.replicate 8 (some "d") ++ [some "x", some "x"]) = false
      ∧ detect_data_type (fun s => s == "d") (fun _ => false)
          (List.replicate 8 (some "d") ++ [some "x", some "x"]) = "дата"
      ∧ clean_values (List.replicate 7 (some "d") ++ [some "x", some "x", some "x"]) ≠ []
      ∧ flag_condition (List.replicate 7 (some "d") ++ [some "x", some "x", some "x"]) = false
      ∧ detect_data_type (fun s => s == "d") (fun _ => false)
          (List.replicate 7 (some "d") ++ [some "x", some "x", some "x"]) ≠ "дата" := by
  refine ⟨by decide, by decide, ?_, by decide, by decide, ?_⟩
  · exact (detect_data_type_date_iff (fun s => s == "d") (fun _ => false)
      (List.replicate 8 (some "d") ++ [some "x", some "x"])
      (by decide) (by decide)).mpr (by decide)
  · intro hcontr
    exact absurd ((detect_data_type_date_iff (fun s => s == "d") (fun _ => false)
      (List.replicate 7 (some "d") ++ [some "x", some "x", some "x"])
      (by decide) (by decide)).mp hcontr) (by decide)

/-- C5: for every non-empty column sample that matches neither the flag nor
the date condition, `detect_data_type` returns the number type exactly when
the numeric-parseable fraction strictly exceeds 0.8 (modelled exactly:
`10 * numeric_count > 8 * total`), and returns the text type otherwise. -/
theorem detect_data_type_number_iff (is_date is_numeric : String → Bool)
    (values : List (Option String))
    (hne : clean_values values ≠ [])
    (hflag : flag_condition values = false)
    (hdate : ¬ 7 * (clean_values values).length <
        10 * (clean_values values).countP is_date) :
    (detect_data_type is_date is_numeric values = "число" ↔
        8 * (clean_values values).length <
          10 * (clean_values values).countP is_numeric)
      ∧ (¬ 8 * (clean_values values).length <
            10 * (clean_values values).countP is_numeric →
          detect_data_type is_date is_numeric values = "текст") := by
  have h0 : ¬ (clean_values values).length = 0 := by
    simpa [List.length_eq_zero] using hne
  by_cases hn : 8 * (clean_values values).length <
      10 * (clean_values values).countP is_numeric
  · constructor
    · simp [detect_data_type, h0, hflag, hdate, hn]
    · intro hcontr
      exact absurd hn hcontr
  · constructor
    · simp only [detect_data_type, h0, if_false, hflag, Bool.false_eq_true, if_neg,
        hdate, hn, iff_false]
      intro hcontr
      exact absurd hcontr (by decide)
    · intro _
      simp [detect_data_type, h0, hflag, hdate, hn]

/-- C5 witness: with a concrete predicate, 9 of 10 numeric-parseable values
(90% > 80%) classify as number, and exactly 8 of 10 (80%) fall through to
text. -/
theorem detect_data_type_number_iff_witness :
    clean_values (List.replicate 9 (some "7,5") ++ [some "x"]) ≠ []
      ∧ flag_condition (List.replicate 9 (some "7,5") ++ [some "x"]) = false
      ∧ detect_data_type (fun _ => false) (fun s => s == "7,5")
          (List.replicate 9 (some "7,5") ++ [some "x"]) = "число"
      ∧ detect_data_type (fun _ => false) (fun s => s == "7,5")
          (List.replicate 8 (some "7,5") ++ [some "x", some "x"]) = "текст" := by
  refine ⟨by decide, by decide, ?_, ?_⟩
  · exact (detect_data_type_number_iff (fun _ => false) (fun s => s == "7,5")
      (List.replicate 9 (some "7,5") ++ [some "x"])
      (by decide) (by decide) (by decide)).1.mpr (by decide)
  · exact (detect_data_type_number_iff (fun _ => false) (fun s => s == "7,5")
      (List.replicate 8 (some "7,5") ++ [some "x", some "x"])
      (by decide) (by decide) (by decide)).2 (by decide)

/-- C1: the spec requires `transform_to_metadata` to succeed with an empty
Metadata Table on a zero-column input, but the code fails there: with an
empty column list `metadata_list` is empty, `pd.DataFrame([])` has no
columns, and the post-pass lookup `metadata_df['Noreportfield_info']`
raises `KeyError`. -/
theorem transform_to_metadata_empty_fails :
    transform_to_metadata "R001" (fun _ => false) (fun _ => false) [] "Ручной"
      = Except.error "KeyError: 'Noreportfield_info'" := rfl

/-- C6: on every record of a successfully built Metadata Table, the
report-type defaults hold: Manual/Semi-automatic set
technical-algorithm "Ручной ввод" and source-type "Ручное заполнение";
Automatic/ILA set technical-algorithm empty and source-type
"База данных"; and the system link is "ИЛА One" exactly for "ИЛА",
empty otherwise. -/
theorem transform_to_metadata_defaults (report_number : String)
    (is_date is_numeric : String → Bool)
    (df : List (String × List (Option String))) (report_type : String)
    (t : List MetadataRecord)
    (h : transform_to_metadata report_number is_date is_numeric df report_type
      = Except.ok t) :
    ∀ r ∈ t,
      ((report_type = "Ручной" ∨ report_type = "Полуавтоматический") →
          r.TechAlgorythm = "Ручной ввод" ∧ r.base_type_info = "Ручное заполнение")
        ∧ ((report_type = "Автоматический" ∨ report_type = "ИЛА") →
          r.TechAlgorythm = "" ∧ r.base_type_info = "База данных")
        ∧ (report_type = "ИЛА" → r.related_it_system_info = "ИЛА One")
        ∧ (report_type ≠ "ИЛА" → r.related_it_system_info = "") := by
  intro r hr
  simp only [transform_to_metadata] at h
  split at h
  · exact absurd h (by simp)
  · injection h with h
    subst h
    rw [List.mem_map] at hr
    obtain ⟨r0, hr0, hpost⟩ := hr
    rw [List.mem_map] at hr0
    obtain ⟨p, _, hbuild⟩ := hr0
    subst hbuild
    subst hpost
    refine ⟨?_, ?_, ?_, ?_⟩
    · rintro (rfl | rfl) <;> exact ⟨rfl, rfl⟩
    · rintro (rfl | rfl) <;> exact ⟨rfl, rfl⟩
    · rintro rfl
      rfl
    · intro hne
      show (build_record is_date is_numeric report_type
        (p.1 + 1) p.2.1 p.2.2).related_it_system_info = ""
      simp only [build_record]
      rw [if_neg hne]

/-- The record produced for a one-column dataset `[("ID", ["1"])]` with
report number "R001" and report type "ИЛА" (the column classifies as flag
since "1" is in the boolean vocabulary). -/
def ila_example_record : MetadataRecord :=
  { ReportCode_info := "R001_1", Noreportfield_info := 1, name := "ID",
    description := "", TechAsIs := "", BussAlgorythm := "", TechAlgorythm := "",
    algorithms_change_info := "нет", dbobjectlink := "",
    base_type_info := "База данных", related_it_system_info := "ИЛА One",
    reportfields_codes := "", reportfields_names := "",
    reportfields_parent_term := "", reportfields_domain := "",
    required_attribute_info := "да", base_type_report_field := "флаг",
    base_calc_ref_ind_info := "Базовый", codeTable_info := "",
    example_info := "", isToDelete_info := "" }

/-- C6 witness: a concrete one-column build with report type "ИЛА" yields
an empty technical algorithm, source-type "База данных" and the fixed ILA
system link. -/
theorem transform_to_metadata_defaults_witness :
    transform_to_metadata "R001" (fun _ => false) (fun _ => false)
        [("ID", [some "1"])] "ИЛА" = Except.ok [ila_example_record]
      ∧ ila_example_record.TechAlgorythm = ""
      ∧ ila_example_record.base_type_info = "База данных"
      ∧ ila_example_record.related_it_system_info = "ИЛА One" := by
  have htr : transform_to_metadata "R001" (fun _ => false) (fun _ => false)
      [("ID", [some "1"])] "ИЛА" = Except.ok [ila_example_record] := by rfl
  have h := transform_to_metadata_defaults "R001" (fun _ => false) (fun _ => false)
    [("ID", [some "1"])] "ИЛА" [ila_example_record] htr ila_example_record
    (List.mem_singleton.mpr rfl)
  exact ⟨htr, (h.2.1 (Or.inr rfl)).1, (h.2.1 (Or.inr rfl)).2, h.2.2.1 rfl⟩

/-- C10 counterexample: for the non-manual report type "Автоматический" and
a zero-column dataset, build fails with the KeyError of the
`ReportCode_info` post-pass rather than succeeding. -/
theorem transform_to_metadata_auto_empty_fails :
    transform_to_metadata "R001" (fun _ => false) (fun _ => false) []
      "Автоматический" = Except.error "KeyError: 'Noreportfield_info'" := rfl

/-- C10 amended: for every report-type string other than "Ручной" and
"Полуавтоматический" — including strings outside the four documented
types — and every dataset with at least one column, build succeeds and
applies the Automatic defaults to every record, setting the system link
exactly when the string is "ИЛА". -/
theorem transform_to_metadata_other_types (report_number : String)
    (is_date is_numeric : String → Bool)
    (df : List (String × List (Option String))) (report_type : String)
    (hdf : df ≠ [])
    (h1 : report_type ≠ "Ручной") (h2 : report_type ≠ "Полуавтоматический") :
    ∃ t, transform_to_metadata report_number is_date is_numeric df report_type
        = Except.ok t
      ∧ ∀ r ∈ t, r.TechAlgorythm = "" ∧ r.base_type_info = "База данных"
          ∧ r.related_it_system_info
              = (if report_type = "ИЛА" then "ИЛА One" else "") := by
  rcases df with _ | ⟨c, cs⟩
  · exact absurd rfl hdf
  · refine ⟨_, rfl, ?_⟩
    intro r hr
    rw [List.mem_map] at hr
    obtain ⟨r0, hr0, hpost⟩ := hr
    rw [List.mem_map] at hr0
    obtain ⟨p, _, hbuild⟩ := hr0
    subst hbuild
    subst hpost
    have hmem : report_type ∉ ["Ручной", "Полуавтоматический"] := by
      simp [h1, h2]
    refine ⟨?_, ?_, rfl⟩
    · show (build_record is_date is_numeric report_type
        (p.1 + 1) p.2.1 p.2.2).TechAlgorythm = ""
      simp only [build_record]
      rw [if_neg hmem]
    · show (build_record is_date is_numeric report_type
        (p.1 + 1) p.2.1 p.2.2).base_type_info = "База данных"
      simp only [build_record]
      rw [if_neg hmem]

/-- The record produced for a one-column dataset `[("X", [])]` with report
number "R001" and a report type outside the four documented ones. -/
def other_example_record : MetadataRecord :=
  { ReportCode_info := "R001_1", Noreportfield_info := 1, name := "X",
    description := "", TechAsIs := "", BussAlgorythm := "", TechAlgorythm := "",
    algorithms_change_info := "нет", dbobjectlink := "",
    base_type_info := "База данных", related_it_system_info := "",
    reportfields_codes := "", reportfields_names := "",
    reportfields_parent_term := "", reportfields_domain := "",
    required_attribute_info := "да", base_type_report_field := "текст",
    base_calc_ref_ind_info := "Базовый", codeTable_info := "",
    example_info := "", isToDelete_info := "" }

/-- C10 witness (amended claim): a concrete build with the undocumented
report type "Произвольный" succeeds and carries the Automatic defaults
with an empty system link. -/
theorem transform_to_metadata_other_types_witness :
    ("Произвольный" : String) ≠ "Ручной"
      ∧ ("Произвольный" : String) ≠ "Полуавтоматический"
      ∧ ([("X", ([] : List (Option String)))]
          ≠ ([] : List (String × List (Option String))))
      ∧ other_example_record.TechAlgorythm = ""
      ∧ other_example_record.base_type_info = "База данных"
      ∧ other_example_record.related_it_system_info = "" := by
  obtain ⟨t, htr, hprops⟩ := transform_to_metadata_other_types "R001"
    (fun _ => false) (fun _ => false) [("X", [])] "Произвольный"
    (by decide) (by decide) (by decide)
  have htr2 : transform_to_metadata "R001" (fun _ => false) (fun _ => false)
      [("X", [])] "Произвольный" = Except.ok [other_example_record] := by rfl
  rw [htr] at htr2
  injection htr2 with ht
  subst ht
  have hp := hprops other_example_record (List.mem_singleton.mpr rfl)
  have hrel := hp.2.2
  rw [if_neg (by decide : ¬("Произвольный" : String) = "ИЛА")] at hrel
  exact ⟨by decide, by decide, by decide, hp.1, hp.2.1, hrel⟩

theorem string_append_cancel_left {s t u : String} (h : s ++ t = s ++ u) :
    t = u := by
  have hd := congrArg String.data h
  simp only [String.data_append] at hd
  have hc := List.append_cancel_left hd
  cases t
  cases u
  exact congrArg String.mk hc

/-- The generated-code map `i ↦ f"{report_number}_{i + 1}"` is injective. -/
theorem code_map_injective (report_number : String) :
    Function.Injective fun i : Nat => report_number ++ "_" ++ natRepr (i + 1) := by
  intro a b hab
  have h1 : natRepr (a + 1) = natRepr (b + 1) :=
    string_append_cancel_left hab
  have h2 := natRepr_injective h1
  omega

/-- C7: on every dataset with at least one column, build succeeds with one
record per input column in input order, 1-based column indices, generated
codes `f"{report_number}_{index}"`, and pairwise-distinct generated codes
within the report. -/
theorem transform_to_metadata_shape (report_number : String)
    (is_date is_numeric : String → Bool)
    (df : List (String × List (Option String))) (report_type : String)
    (hdf : df ≠ []) :
    ∃ t, transform_to_metadata report_number is_date is_numeric df report_type
        = Except.ok t
      ∧ t.length = df.length
      ∧ (∀ i nm vals, df[i]? = some (nm, vals) →
          ∃ r, t[i]? = some r ∧ r.Noreportfield_info = i + 1 ∧ r.name = nm
            ∧ r.ReportCode_info = report_number ++ "_" ++ natRepr (i + 1))
      ∧ (t.map MetadataRecord.ReportCode_info).Nodup := by
  have hml : ¬ (df.enum.map fun p =>
      build_record is_date is_numeric report_type (p.1 + 1) p.2.1 p.2.2).isEmpty
        = true := by
    rcases df with _ | ⟨c, cs⟩
    · exact absurd rfl hdf
    · intro hcontr
      simp [List.enum] at hcontr
  refine ⟨(df.enum.map fun p =>
      build_record is_date is_numeric report_type (p.1 + 1) p.2.1 p.2.2).map
        fun r => { r with
          ReportCode_info := report_number ++ "_" ++ natRepr r.Noreportfield_info },
    ?_, ?_, ?_, ?_⟩
  · simp only [transform_to_metadata]
    rw [if_neg hml]
  · simp [List.length_map, List.enum_length]
  · intro i nm vals hi
    refine ⟨{ build_record is_date is_numeric report_type (i + 1) nm vals with
        ReportCode_info := report_number ++ "_" ++ natRepr
          (build_record is_date is_numeric report_type (i + 1) nm vals).Noreportfield_info },
      ?_, rfl, rfl, rfl⟩
    rw [List.getElem?_map, List.getElem?_map, List.getElem?_enum, hi]
    rfl
  · have hmap : ((df.enum.map fun p =>
            build_record is_date is_numeric report_type (p.1 + 1) p.2.1 p.2.2).map
          fun r => { r with
            ReportCode_info := report_number ++ "_" ++ natRepr r.Noreportfield_info
          }).map MetadataRecord.ReportCode_info
        = (df.enum.map Prod.fst).map
            fun i : Nat => report_number ++ "_" ++ natRepr (i + 1) := by
      simp only [List.map_map]
      rfl
    rw [hmap]
    exact (List.nodup_enum_map_fst df).map (code_map_injective report_number)

/-- C7 witness: a concrete two-column build with report number "R007"
yields two records, 1-based indexing, codes "R007_1", "R007_2", distinct. -/
theorem transform_to_metadata_shape_witness :
    ([("A", ([] : List (Option String))), ("B", [])]
        ≠ ([] : List (String × List (Option String))))
      ∧ ∃ t, transform_to_metadata "R007" (fun _ => false) (fun _ => false)
            [("A", []), ("B", [])] "Ручной" = Except.ok t
          ∧ t.length = ([("A", ([] : List (Option String))), ("B", [])]).length
          ∧ (∀ i nm vals,
              ([("A", ([] : List (Option String))), ("B", [])])[i]? = some (nm, vals) →
              ∃ r, t[i]? = some r ∧ r.Noreportfield_info = i + 1 ∧ r.name = nm
                ∧ r.ReportCode_info = "R007" ++ "_" ++ natRepr (i + 1))
          ∧ (t.map MetadataRecord.ReportCode_info).Nodup :=
  ⟨by decide,
   transform_to_metadata_shape "R007" (fun _ => false) (fun _ => false)
     [("A", []), ("B", [])] "Ручной" (by decide)⟩

/-- C8: for every Metadata Table, the exported single-sheet workbook has
the 21 fixed technical header keys in documented order as the hidden
row 1, the 21 human-readable labels as the bold row 2, panes frozen at
cell (3, 1) so the data rows start at row 3, and the data rows hold the
record fields column-by-column in the same order and width as the header
rows. -/
theorem create_excel_download_layout (metadata_df : List MetadataRecord) :
    (create_excel_download metadata_df).row1
        = ["ReportCode_info", "Noreportfield_info", "name", "description",
           "TechAsIs", "BussAlgorythm", "TechAlgorythm",
           "algorithms_change_info", "dbobjectlink", "base_type_info",
           "related_it_system_info", "reportfields_codes",
           "reportfields_names", "reportfields_parent_term",
           "reportfields_domain", "required_attribute_info",
           "base_type_report_field", "base_calc_ref_ind_info",
           "codeTable_info", "example", "isToDelete_info"]
      ∧ (create_excel_download metadata_df).row1.length = 21
      ∧ (create_excel_download metadata_df).row1_hidden = true
      ∧ (create_excel_download metadata_df).row2 = user_headers
      ∧ (create_excel_download metadata_df).row2.length = 21
      ∧ (create_excel_download metadata_df).row2_bold = true
      ∧ (create_excel_download metadata_df).freeze_row = 3
      ∧ (create_excel_download metadata_df).freeze_col = 1
      ∧ (create_excel_download metadata_df).data_rows
          = metadata_df.map recordToRow
      ∧ ∀ r, (recordToRow r).length
          = (create_excel_download metadata_df).row1.length :=
  ⟨rfl, rfl, rfl, rfl, rfl, rfl, rfl, rfl, rfl, fun _ => rfl⟩

/-- C9: parsing the exported sheet's data rows recovers exactly the
original Metadata Records in documented column order, and exporting the
empty Metadata Table yields only the two header rows with zero data
rows. -/
theorem create_excel_download_roundtrip :
    (∀ metadata_df : List MetadataRecord,
        ((create_excel_download metadata_df).data_rows).map parse_record
          = metadata_df.map some)
      ∧ (create_excel_download []).data_rows = [] := by
  constructor
  · intro metadata_df
    induction metadata_df with
    | nil => rfl
    | cons r t ih =>
      show ((r :: t).map recordToRow).map parse_record = (r :: t).map some
      rw [List.map_cons, List.map_cons, List.map_cons]
      exact congrArg (fun l => some r :: l) ih
  · rfl
